import Mathlib

/-
Shallow embedding of the nexariq-agentic-code-editor proxy layer and chat
client.  The multi-turn normalizer (handler / fetchClaudeResponse) comes from
the unnamed api handler file; the simplified single-message forwarder
(chatHandler) comes from api/chat.js; the client send operation (sendMessage)
comes from the client script.  JavaScript truthiness of optional strings and
numbers is modelled explicitly; the upstream HTTP exchange is an oracle
parameter (UpstreamResp) describing the one response the upstream would give.
-/

namespace Nexariq

/-- Truthiness of an optional JS string: absent and empty are falsy. -/
def truthyStr : Option String → Bool
  | none => false
  | some s => s != ""

/-- Whitespace as removed by JS String.prototype.trim. -/
def isWhitespaceChar (c : Char) : Bool :=
  c = ' ' || c = '\t' || c = '\n' || c = '\r'

/-- JS String.prototype.trim: strip whitespace from both ends. -/
def jsTrim (s : String) : String :=
  ⟨(((s.data.dropWhile isWhitespaceChar).reverse).dropWhile isWhitespaceChar).reverse⟩

/-- JS String.prototype.substring(0, n): the first n characters. -/
def jsTake (s : String) (n : Nat) : String :=
  ⟨s.data.take n⟩

/-- A client-supplied chat message as parsed from the JSON request body.
Absent fields are `none`; an empty string is present but falsy. -/
structure Msg where
  role : Option String
  content : Option String
deriving DecidableEq

instance : Inhabited Msg := ⟨⟨none, none⟩⟩

/-- Generation options from the client payload (`options` in the body).
`length` and `creativity` are JS numbers, so 0 is falsy. -/
structure Options where
  length : Option Int := none
  creativity : Option ℚ := none
  system : Option String := none
deriving DecidableEq

/-- A message after filtering/coercion, as placed in the upstream payload. -/
structure CMsg where
  role : String
  content : String
deriving DecidableEq

/-- Source filter chain: drop entries with falsy role or content, coerce role
(non-assistant becomes user), trim content, drop entries whose trimmed
content is empty. -/
def toClaudeMessages (msgs : List Msg) : List CMsg :=
  ((msgs.filter (fun m => truthyStr m.role && truthyStr m.content)).map
    (fun m =>
      { role := if m.role = some "assistant" then "assistant" else "user"
        content := jsTrim (m.content.getD "") })).filter
    (fun m => m.content.length > 0)

/-- Source: Math.min(Math.max(options.length || 1024, 1), 4096).
A falsy length (absent or 0) defaults to 1024 before clamping. -/
def claudeMaxTokens (l : Option Int) : Int :=
  let base : Int :=
    match l with
    | none => 1024
    | some n => if n = 0 then 1024 else n
  min (max base 1) 4096

/-- Source: options.creativity ? Math.min(options.creativity / 100, 1) : 0.7.
A falsy creativity (absent or 0) yields 0.7; otherwise creativity/100 is
clamped from above by 1 only (no lower clamp). -/
def claudeTemperature (c : Option ℚ) : ℚ :=
  match c with
  | none => 7/10
  | some x => if x = 0 then 7/10 else min (x / 100) 1

/-- The payload sent to the upstream API (model field omitted: constant). -/
structure AnthropicPayload where
  maxTokens : Int
  messages : List CMsg
  temperature : ℚ
  system : Option String
deriving DecidableEq

/-- Errors thrown inside fetchClaudeResponse (caught by the handler). -/
inductive ProxyError where
  | noValidMessages
  | notUserFirst
  | upstreamStatus (msg : String)
  | invalidJson
  | noContentArray
  | emptyContent
  | invalidContentFormat
  | emptyContentText
deriving DecidableEq

/-- The message carried by each thrown error, as in the source strings. -/
def errorMessage : ProxyError → String
  | .noValidMessages => "No valid messages to send"
  | .notUserFirst => "Conversation must start with a user message"
  | .upstreamStatus m => m
  | .invalidJson => "Invalid JSON response from Claude API"
  | .noContentArray => "Invalid response format from Claude API - no content array"
  | .emptyContent => "Empty response from Claude API"
  | .invalidContentFormat => "Invalid content format from Claude API"
  | .emptyContentText => "Empty response content from Claude API"

/-- The conditional spread ...(options.system && \x7b system \x7d): the system
field is included only when options.system is truthy. -/
def systemField (s : Option String) : Option String :=
  if truthyStr s then s else none

/-- Pre-upstream part of fetchClaudeResponse: filter, validate, build payload. -/
def buildAnthropicPayload (msgs : List Msg) (opts : Options) :
    Except ProxyError AnthropicPayload :=
  if (toClaudeMessages msgs).length = 0 then .error .noValidMessages
  else if ((toClaudeMessages msgs).headD ⟨"", ""⟩).role ≠ "user" then .error .notUserFirst
  else .ok
    { maxTokens := claudeMaxTokens opts.length
      messages := toClaudeMessages msgs
      temperature := claudeTemperature opts.creativity
      system := systemField opts.system }

/-- One element of the upstream content array; `text` is `none` when the
field is absent or not a string. -/
structure ContentItem where
  text : Option String
deriving DecidableEq

/-- The parsed upstream JSON body. `content` is `none` when the field is
absent or not an array; `errMessage` collapses the source chain
error?.message || message (none when both are absent). -/
structure UpstreamJson where
  content : Option (List ContentItem)
  errMessage : Option String
deriving DecidableEq

/-- The upstream HTTP exchange outcome: status-ok flag, numeric status, raw
body text and its JSON parse (`none` when the body is not valid JSON). -/
structure UpstreamResp where
  ok : Bool
  status : Nat
  bodyText : String
  parsed : Option UpstreamJson
deriving DecidableEq

/-- Post-upstream part of fetchClaudeResponse: error extraction on non-2xx,
then JSON and content-shape validation, returning the trimmed text. -/
def extractResponseText (r : UpstreamResp) : Except ProxyError String :=
  if r.ok = false then
    .error (.upstreamStatus
      (match r.parsed with
       | some j =>
         match j.errMessage with
         | some m => if m = "" then "Claude API Error: " ++ toString r.status else m
         | none => "Claude API Error: " ++ toString r.status
       | none =>
         "Claude API Error: " ++ toString r.status ++ " - " ++ jsTake r.bodyText 200))
  else
    match r.parsed with
    | none => .error .invalidJson
    | some j =>
      match j.content with
      | none => .error .noContentArray
      | some [] => .error .emptyContent
      | some (c0 :: _) =>
        match c0.text with
        | none => .error .invalidContentFormat
        | some t => if jsTrim t = "" then .error .emptyContentText else .ok (jsTrim t)

/-- fetchClaudeResponse as a pure function of the messages, options and the
upstream oracle; the Bool records whether the upstream call was made. -/
def fetchClaudeResponse (msgs : List Msg) (opts : Options) (up : UpstreamResp) :
    Except ProxyError String × Bool :=
  match buildAnthropicPayload msgs opts with
  | .error e => (.error e, false)
  | .ok _ => (extractResponseText up, true)

/-- A request to the multi-turn handler. `messages` is `none` when absent or
not an array; `options` is `none` when absent or falsy. -/
structure ProxyRequest where
  method : String
  messages : Option (List Msg)
  options : Option Options
deriving DecidableEq

/-- Response bodies the two handlers can produce. -/
inductive RespBody where
  | empty
  | errorBody (error : String) (details : Option String)
  | choices (content : String)
  | respText (t : Option String)
deriving DecidableEq

/-- An HTTP response: status code and JSON body. -/
structure HttpResponse where
  status : Nat
  body : RespBody
deriving DecidableEq

/-- Helper for containsSub: does pat occur at any position of the list. -/
def containsSubAux (pat : List Char) : List Char → Bool
  | [] => pat.isPrefixOf []
  | c :: rest => pat.isPrefixOf (c :: rest) || containsSubAux pat rest

/-- Substring test, modelling JS String.prototype.includes. -/
def containsSub (s pat : String) : Bool :=
  containsSubAux pat.data s.data

/-- The catch-block of the multi-turn handler: substring matching on the
thrown message picks the error text; every branch responds 500. -/
def errorResponse (msg : String) : HttpResponse :=
  if containsSub msg "401" then
    ⟨500, .errorBody "Authentication failed. Please check your ANTHROPIC_API_KEY." (some msg)⟩
  else if containsSub msg "429" then
    ⟨500, .errorBody "Rate limit exceeded. Please try again later." (some msg)⟩
  else if containsSub msg "400" then
    ⟨500, .errorBody "Invalid request format." (some msg)⟩
  else
    ⟨500, .errorBody "Server error" (some msg)⟩

/-- The multi-turn proxy handler. Returns the HTTP response and whether the
upstream was called. -/
def handler (req : ProxyRequest) (apiKey : Option String) (up : UpstreamResp) :
    HttpResponse × Bool :=
  if req.method = "OPTIONS" then (⟨200, .empty⟩, false)
  else if req.method ≠ "POST" then (⟨405, .errorBody "Method not allowed" none⟩, false)
  else
    match req.messages with
    | none => (⟨400, .errorBody "Invalid messages format" none⟩, false)
    | some msgs =>
      match req.options with
      | none => (⟨400, .errorBody "Missing options" none⟩, false)
      | some opts =>
        if truthyStr apiKey = false then
          (⟨500, .errorBody
            "API key not configured. Please set ANTHROPIC_API_KEY in your Vercel environment variables."
            none⟩, false)
        else if msgs.length = 1 ∧ (msgs.headD ⟨none, none⟩).content = some "ping" then
          (⟨200, .choices "pong"⟩, false)
        else
          match fetchClaudeResponse msgs opts up with
          | (.error e, called) => (errorResponse (errorMessage e), called)
          | (.ok text, called) =>
            if jsTrim text = "" then
              (⟨500, .errorBody "Empty response from AI" none⟩, called)
            else (⟨200, .choices text⟩, called)

/-- The simplified single-message forwarder of api/chat.js.  On upstream HTTP
failure with a parseable error body it forwards the upstream status code;
thrown runtime failures (parse error, property access on undefined) land in
the catch-block as 500. -/
def chatHandler (method : String) (message : Option String) (apiKey : Option String)
    (up : UpstreamResp) : HttpResponse :=
  if method = "OPTIONS" then ⟨200, .empty⟩
  else if method ≠ "POST" then ⟨405, .errorBody "Method not allowed" none⟩
  else if truthyStr message = false then ⟨400, .errorBody "Message is required" none⟩
  else if truthyStr apiKey = false then ⟨500, .errorBody "API key not configured" none⟩
  else if up.ok = false then
    match up.parsed with
    | some j =>
      ⟨up.status, .errorBody "Failed to process request"
        (some (match j.errMessage with
               | some m => if m = "" then "Unknown error" else m
               | none => "Unknown error"))⟩
    | none => ⟨500, .errorBody "Failed to process request" (some "SyntaxError")⟩
  else
    match up.parsed with
    | none => ⟨500, .errorBody "Failed to process request" (some "SyntaxError")⟩
    | some j =>
      match j.content with
      | none => ⟨500, .errorBody "Failed to process request" (some "TypeError")⟩
      | some [] => ⟨500, .errorBody "Failed to process request" (some "TypeError")⟩
      | some (c0 :: _) => ⟨200, .respText c0.text⟩

/-- One turn of the client conversation (`type` is "user" or "ai"). -/
structure ChatTurn where
  type : String
  content : String
deriving DecidableEq

/-- The client quota counters. -/
structure QuotaState where
  used : Int
  messagesLeft : Int
deriving DecidableEq

/-- The client session state touched by sendMessage. -/
structure ClientState where
  inputValue : String
  pendingMessages : List String
  messages : List ChatTurn
  quota : QuotaState
  apiStatus : String
  hasMessages : Bool
deriving DecidableEq

/-- Outcome of the client fetch to the proxy: network error, non-ok status,
malformed JSON body or response shape (thrown while reading choices), or a
successful assistant content string. -/
inductive FetchOutcome where
  | netError (msg : String)
  | httpStatus (status : Nat)
  | badBody (msg : String)
  | ok (content : String)
deriving DecidableEq

/-- error.message in the client catch-block for each failure outcome. -/
def fetchErrorMessage : FetchOutcome → String
  | .netError m => m
  | .httpStatus st => "API request failed with status " ++ toString st
  | .badBody m => m
  | .ok _ => ""

/-- What sendMessage reports to the collaborating UI layer (toasts). -/
inductive UiSignal where
  | noSignal
  | quotaExceeded
  | offline
  | success
  | failure (msg : String)
deriving DecidableEq

/-- Result of one sendMessage invocation: the new state, whether a request
was issued to the proxy, and the UI signal. -/
structure SendResult where
  state : ClientState
  requestIssued : Bool
  signal : UiSignal
deriving DecidableEq

/-- The fixed apology turn appended on failure. -/
def apologyText : String :=
  "I apologize, but I encountered an error while processing your request. Please try again."

/-- The client send operation, with the fetch outcome as an oracle. -/
def sendMessage (s : ClientState) (outcome : FetchOutcome) : SendResult :=
  let message := jsTrim s.inputValue
  if message = "" ∨ s.pendingMessages ≠ [] then ⟨s, false, .noSignal⟩
  else if s.quota.messagesLeft ≤ 0 then ⟨s, false, .quotaExceeded⟩
  else if s.apiStatus ≠ "online" then ⟨s, false, .offline⟩
  else
    let s1 : ClientState :=
      { s with
        inputValue := ""
        messages := s.messages ++ [⟨"user", message⟩]
        hasMessages := true
        pendingMessages := s.pendingMessages ++ [message] }
    match outcome with
    | .ok content =>
      ⟨{ s1 with
          messages := s1.messages ++ [⟨"ai", content⟩]
          quota := ⟨s1.quota.used + 1, s1.quota.messagesLeft - 1⟩
          pendingMessages := s1.pendingMessages.filter (fun m => m ≠ message) },
        true, .success⟩
    | f =>
      ⟨{ s1 with
          messages := s1.messages ++ [⟨"ai", apologyText⟩]
          pendingMessages := s1.pendingMessages.filter (fun m => m ≠ message) },
        true, .failure ("Failed to generate response: " ++ fetchErrorMessage f)⟩

/-! Helper definitions and lemmas shared by the claim theorems. -/

/-- A successful upstream exchange used as a concrete oracle in witnesses. -/
def upOkSample : UpstreamResp := ⟨true, 200, "", some ⟨some [⟨some "hello there"⟩], none⟩⟩

/-- A failed upstream exchange with an unparseable body. -/
def upFailSample : UpstreamResp := ⟨false, 503, "bad gateway", none⟩

/-- A rate-limited upstream exchange with a parseable error body. -/
def upFail429 : UpstreamResp := ⟨false, 429, "rate limited", some ⟨none, some "rate limit exceeded"⟩⟩

/-- A successful upstream exchange whose content array is empty. -/
def upEmptyContent : UpstreamResp := ⟨true, 200, "", some ⟨some [], none⟩⟩

/-- The payload built from one user message and sample options. -/
def samplePayload : AnthropicPayload :=
  ⟨claudeMaxTokens none, [⟨"user", "hi"⟩], claudeTemperature (some 30), none⟩

lemma errorResponse_status (m : String) : (errorResponse m).status = 500 := by
  unfold errorResponse
  split
  · rfl
  split
  · rfl
  split <;> rfl

lemma truthyStr_some {key : String} (hk : key ≠ "") : truthyStr (some key) = true := by
  simp [truthyStr, hk]

lemma buildAnthropicPayload_temperature (msgs : List Msg) (opts : Options)
    (p : AnthropicPayload) (h : buildAnthropicPayload msgs opts = .ok p) :
    p.temperature = claudeTemperature opts.creativity := by
  unfold buildAnthropicPayload at h
  by_cases h1 : (toClaudeMessages msgs).length = 0
  · rw [if_pos h1] at h
    exact absurd h (by simp)
  · rw [if_neg h1] at h
    by_cases h2 : ((toClaudeMessages msgs).headD ⟨"", ""⟩).role ≠ "user"
    · rw [if_pos h2] at h
      exact absurd h (by simp)
    · rw [if_neg h2] at h
      rw [Except.ok.injEq] at h
      subst h
      rfl

lemma buildAnthropicPayload_maxTokens (msgs : List Msg) (opts : Options)
    (p : AnthropicPayload) (h : buildAnthropicPayload msgs opts = .ok p) :
    p.maxTokens = claudeMaxTokens opts.length := by
  unfold buildAnthropicPayload at h
  by_cases h1 : (toClaudeMessages msgs).length = 0
  · rw [if_pos h1] at h
    exact absurd h (by simp)
  · rw [if_neg h1] at h
    by_cases h2 : ((toClaudeMessages msgs).headD ⟨"", ""⟩).role ≠ "user"
    · rw [if_pos h2] at h
      exact absurd h (by simp)
    · rw [if_neg h2] at h
      rw [Except.ok.injEq] at h
      subst h
      rfl

lemma buildAnthropicPayload_error (msgs : List Msg) (opts : Options)
    (hbad : toClaudeMessages msgs = [] ∨
      ((toClaudeMessages msgs).headD ⟨"", ""⟩).role ≠ "user") :
    ∃ e, buildAnthropicPayload msgs opts = .error e := by
  unfold buildAnthropicPayload
  by_cases h1 : (toClaudeMessages msgs).length = 0
  · rw [if_pos h1]
    exact ⟨.noValidMessages, rfl⟩
  · rw [if_neg h1]
    have h2 : ((toClaudeMessages msgs).headD ⟨"", ""⟩).role ≠ "user" := by
      rcases hbad with hb | hb
      · exact absurd (by rw [hb]; rfl) h1
      · exact hb
    rw [if_pos h2]
    exact ⟨.notUserFirst, rfl⟩

lemma extractResponseText_not_ok (up : UpstreamResp) (h : up.ok = false) (t : String) :
    extractResponseText up ≠ .ok t := by
  unfold extractResponseText
  rw [if_pos h]
  simp

/-! Claim theorems. -/

/-- Claim C1 counterexample: the temperature map has no lower clamp.  A
creativity of -10 is truthy, so the source computes min(-10/100, 1) = -1/10,
not the 0 the claim states. -/
theorem creativity_lower_clamp_counterexample :
    claudeTemperature (some (-10)) = -(1/10) ∧ (-(1/10) : ℚ) ≠ 0 := by
  constructor
  · norm_num [claudeTemperature, min_def]
  · norm_num

/-- Claim C1 (amended): the normalizer maps a nonzero creativity c to
temperature min(c/100, 1) with no lower clamp, so -10, 50, 100, 250 yield
-0.1, 0.5, 1.0, 1.0; an absent (or zero, falsy) creativity yields 0.7; the
built upstream payload carries exactly this temperature. -/
theorem creativity_temperature_amended :
    claudeTemperature (some (-10)) = -(1/10) ∧
    claudeTemperature (some 50) = 1/2 ∧
    claudeTemperature (some 100) = 1 ∧
    claudeTemperature (some 250) = 1 ∧
    claudeTemperature none = 7/10 ∧
    (∀ c : ℚ, c ≠ 0 → claudeTemperature (some c) = min (c / 100) 1) ∧
    (∀ msgs opts p, buildAnthropicPayload msgs opts = Except.ok p →
      p.temperature = claudeTemperature opts.creativity) := by
  refine ⟨?_, ?_, ?_, ?_, ?_, ?_, ?_⟩
  · norm_num [claudeTemperature, min_def]
  · norm_num [claudeTemperature, min_def]
  · norm_num [claudeTemperature, min_def]
  · norm_num [claudeTemperature, min_def]
  · norm_num [claudeTemperature]
  · intro c hc
    simp [claudeTemperature, hc]
  · exact buildAnthropicPayload_temperature

/-- Witness for the amended C1 theorem at creativity 30. -/
theorem creativity_temperature_amended_witness :
    claudeTemperature (some 30) = min ((30 : ℚ) / 100) 1 ∧
    samplePayload.temperature = claudeTemperature (some 30) :=
  ⟨creativity_temperature_amended.2.2.2.2.2.1 30 (by norm_num),
   creativity_temperature_amended.2.2.2.2.2.2 [⟨some "user", some "hi"⟩]
     ⟨none, some 30, none⟩ samplePayload rfl⟩

/-- Claim C2 counterexample: a requested maxOutputLength of 0 is falsy, so
the source defaults it to 1024 before clamping; the upstream max_tokens is
1024, not the 1 the claim states. -/
theorem maxTokens_zero_counterexample :
    claudeMaxTokens (some 0) = 1024 ∧ (1024 : Int) ≠ 1 := by decide

/-- Claim C2 (amended): a falsy maxOutputLength (absent or 0) defaults to
1024, a nonzero one is clamped into [1, 4096], so 0, 5000, 1024 map to 1024,
4096, 1024; the result is always within [1, 4096] and is exactly the
max_tokens of the built upstream payload. -/
theorem maxTokens_clamp_amended :
    claudeMaxTokens (some 0) = 1024 ∧
    claudeMaxTokens (some 5000) = 4096 ∧
    claudeMaxTokens (some 1024) = 1024 ∧
    (∀ l, 1 ≤ claudeMaxTokens l ∧ claudeMaxTokens l ≤ 4096) ∧
    (∀ n : Int, n ≠ 0 → claudeMaxTokens (some n) = min (max n 1) 4096) ∧
    (∀ msgs opts p, buildAnthropicPayload msgs opts = Except.ok p →
      p.maxTokens = claudeMaxTokens opts.length) := by
  refine ⟨by decide, by decide, by decide, ?_, ?_, ?_⟩
  · intro l
    rcases l with _ | n
    · decide
    · by_cases h : n = 0
      · simp [claudeMaxTokens, h]
      · simp only [claudeMaxTokens, h, if_false]
        omega
  · intro n h
    simp [claudeMaxTokens, h]
  · exact buildAnthropicPayload_maxTokens

/-- Witness for the amended C2 theorem at length 7 and at the sample build. -/
theorem maxTokens_clamp_amended_witness :
    (1 ≤ claudeMaxTokens (some 7) ∧ claudeMaxTokens (some 7) ≤ 4096) ∧
    claudeMaxTokens (some 7) = min (max (7 : Int) 1) 4096 ∧
    samplePayload.maxTokens = claudeMaxTokens none :=
  ⟨maxTokens_clamp_amended.2.2.2.1 (some 7),
   maxTokens_clamp_amended.2.2.2.2.1 7 (by decide),
   maxTokens_clamp_amended.2.2.2.2.2 [⟨some "user", some "hi"⟩]
     ⟨none, some 30, none⟩ samplePayload rfl⟩

/-- Claim C3: a request whose sole message is the user "ping" probe is
answered 200 with the canned pong choices body by the POST handler (given the
configured API key the contract presumes), and no request with that sole
message ever triggers an upstream call, whatever the method, options or key. -/
theorem ping_shortcircuit_ok (opts : Options) (key : String) (up : UpstreamResp)
    (hk : key ≠ "") :
    handler ⟨"POST", some [⟨some "user", some "ping"⟩], some opts⟩ (some key) up
      = (⟨200, .choices "pong"⟩, false) ∧
    (∀ method mo ko upo,
      (handler ⟨method, some [⟨some "user", some "ping"⟩], mo⟩ ko upo).2 = false) := by
  constructor
  · simp [handler, truthyStr_some hk]
  · intro method mo ko upo
    by_cases hm1 : method = "OPTIONS"
    · simp [handler, hm1]
    · by_cases hm2 : method = "POST"
      · rcases mo with _ | o2
        · simp [handler, hm1, hm2]
        · cases hko : truthyStr ko
          · simp [handler, hm1, hm2, hko]
          · simp [handler, hm1, hm2, hko]
      · simp [handler, hm1, hm2]

/-- Witness for C3 at empty options, key "k" and a successful oracle. -/
theorem ping_shortcircuit_ok_witness :
    handler ⟨"POST", some [⟨some "user", some "ping"⟩], some {}⟩ (some "k") upOkSample
      = (⟨200, .choices "pong"⟩, false) :=
  (ping_shortcircuit_ok {} "k" upOkSample (by decide)).1

/-- Claim C4 counterexample: a single message with role assistant and content
"ping" has a non-user first filtered message, yet the handler answers 200
pong via the ping short-circuit instead of rejecting with 500. -/
theorem reject_invalid_messages_counterexample :
    ((toClaudeMessages [⟨some "assistant", some "ping"⟩]).headD ⟨"", ""⟩).role = "assistant" ∧
    handler ⟨"POST", some [⟨some "assistant", some "ping"⟩], some {}⟩ (some "k") upOkSample
      = (⟨200, .choices "pong"⟩, false) ∧
    (200 : Nat) ≠ 500 := by decide

/-- Claim C4 (amended): unless the request triggers the ping short-circuit
(exactly one message whose content is "ping"), a POST request whose filtered
message sequence is empty or starts with a non-user role is answered 500
without any upstream call. -/
theorem reject_invalid_messages_amended (msgs : List Msg) (opts : Options) (key : String)
    (up : UpstreamResp) (hk : key ≠ "")
    (hping : ¬(msgs.length = 1 ∧ (msgs.headD ⟨none, none⟩).content = some "ping"))
    (hbad : toClaudeMessages msgs = [] ∨
      ((toClaudeMessages msgs).headD ⟨"", ""⟩).role ≠ "user") :
    (handler ⟨"POST", some msgs, some opts⟩ (some key) up).1.status = 500 ∧
    (handler ⟨"POST", some msgs, some opts⟩ (some key) up).2 = false := by
  obtain ⟨e, he⟩ := buildAnthropicPayload_error msgs opts hbad
  have hfetch : fetchClaudeResponse msgs opts up = (.error e, false) := by
    unfold fetchClaudeResponse
    rw [he]
  have hping2 : ¬(msgs.length = 1 ∧
      (msgs.head?.getD (⟨none, none⟩ : Msg)).content = some "ping") := by
    rw [← List.headD_eq_head?]
    exact hping
  simp [handler, truthyStr_some hk, hping2, hfetch, errorResponse_status]

/-- Witness for the amended C4 theorem at a single assistant message. -/
theorem reject_invalid_messages_amended_witness :
    (handler ⟨"POST", some [⟨some "assistant", some "hello"⟩], some {}⟩ (some "k")
        upOkSample).1.status = 500 ∧
    (handler ⟨"POST", some [⟨some "assistant", some "hello"⟩], some {}⟩ (some "k")
        upOkSample).2 = false :=
  reject_invalid_messages_amended [⟨some "assistant", some "hello"⟩] {} "k" upOkSample
    (by decide) (by decide) (by decide)

/-- Claim C9: the ping short-circuit never inspects the message role: any
single-entry messages array whose content is "ping" is answered 200 pong with
no upstream call, whatever the role (assistant, missing, or anything else). -/
theorem ping_ignores_role (role : Option String) (opts : Options) (key : String)
    (up : UpstreamResp) (hk : key ≠ "") :
    handler ⟨"POST", some [⟨role, some "ping"⟩], some opts⟩ (some key) up
      = (⟨200, .choices "pong"⟩, false) := by
  simp [handler, truthyStr_some hk]

/-- Witness for C9 at a missing role. -/
theorem ping_ignores_role_witness :
    handler ⟨"POST", some [⟨none, some "ping"⟩], some {}⟩ (some "k") upOkSample
      = (⟨200, .choices "pong"⟩, false) :=
  ping_ignores_role none {} "k" upOkSample (by decide)

/-- Claim C5 counterexample: the simplified chat.js variant forwards the
upstream status code on an upstream HTTP failure with a parseable error body;
a 429 from upstream is surfaced as 429, which is neither 500 nor any of the
four claimed codes. -/
theorem status_codes_counterexample :
    (chatHandler "POST" (some "hi") (some "k") upFail429).status = 429 ∧
    (429 : Nat) ∉ ([200, 400, 405, 500] : List Nat) := by decide

/-- Claim C5 (amended): the multi-turn handler only ever answers 200, 400,
405 or 500, and surfaces every upstream failure as 500; the simplified
chat.js variant instead forwards the upstream status code when the upstream
fails with a parseable error body. -/
theorem status_codes_amended :
    (∀ req key up, (handler req key up).1.status = 200 ∨
      (handler req key up).1.status = 400 ∨
      (handler req key up).1.status = 405 ∨
      (handler req key up).1.status = 500) ∧
    (∀ msgs opts key up, up.ok = false →
      (handler ⟨"POST", some msgs, some opts⟩ key up).2 = true →
      (handler ⟨"POST", some msgs, some opts⟩ key up).1.status = 500) ∧
    (∀ msg key up j, truthyStr msg = true → truthyStr key = true → up.ok = false →
      up.parsed = some j → (chatHandler "POST" msg key up).status = up.status) := by
  refine ⟨?_, ?_, ?_⟩
  · intro req key up
    unfold handler
    repeat' split
    all_goals simp [errorResponse_status]
  · intro msgs opts key up hok hcalled
    by_cases hkey : truthyStr key = false
    · simp [handler, hkey] at hcalled
    · have hkey2 : truthyStr key = true := by
        revert hkey
        cases truthyStr key <;> simp
      by_cases hping : msgs.length = 1 ∧
          (msgs.head?.getD (⟨none, none⟩ : Msg)).content = some "ping"
      · simp [handler, hkey2, hping] at hcalled
      · rcases hf : fetchClaudeResponse msgs opts up with ⟨r, called⟩
        rcases r with e | text
        · simp [handler, hkey2, hping, hf, errorResponse_status]
        · exfalso
          unfold fetchClaudeResponse at hf
          rcases hbd : buildAnthropicPayload msgs opts with e2 | p
          · rw [hbd] at hf
            simp at hf
          · rw [hbd] at hf
            simp at hf
            exact extractResponseText_not_ok up hok text hf.1
  · intro msg key up j hmsg hkey hok hparsed
    simp [chatHandler, hmsg, hkey, hok, hparsed]

/-- Witness for the amended C5 theorem: a GET request, a failed upstream on
the multi-turn handler, and a 429 forwarded by the chat.js variant. -/
theorem status_codes_amended_witness :
    ((handler ⟨"GET", none, none⟩ none upOkSample).1.status = 200 ∨
     (handler ⟨"GET", none, none⟩ none upOkSample).1.status = 400 ∨
     (handler ⟨"GET", none, none⟩ none upOkSample).1.status = 405 ∨
     (handler ⟨"GET", none, none⟩ none upOkSample).1.status = 500) ∧
    (handler ⟨"POST", some [⟨some "user", some "hi"⟩], some {}⟩ (some "k")
        upFailSample).1.status = 500 ∧
    (chatHandler "POST" (some "hi") (some "k") upFail429).status = upFail429.status :=
  ⟨status_codes_amended.1 ⟨"GET", none, none⟩ none upOkSample,
   status_codes_amended.2.1 [⟨some "user", some "hi"⟩] {} (some "k") upFailSample rfl
     (by decide),
   status_codes_amended.2.2 (some "hi") (some "k") upFail429
     ⟨none, some "rate limit exceeded"⟩ (by decide) (by decide) rfl rfl⟩

/-- Claim C6: an upstream success whose parsed body has an empty content
array makes fetchClaudeResponse fail with the empty-content error, which the
handler surfaces as a well-defined 500 error response, never a crash. -/
theorem empty_content_error (msgs : List Msg) (opts : Options) (key : String)
    (up : UpstreamResp) (j : UpstreamJson) (hk : key ≠ "")
    (hping : ¬(msgs.length = 1 ∧ (msgs.headD ⟨none, none⟩).content = some "ping"))
    (hbuild : ∃ p, buildAnthropicPayload msgs opts = Except.ok p)
    (hok : up.ok = true) (hparsed : up.parsed = some j) (hcontent : j.content = some []) :
    handler ⟨"POST", some msgs, some opts⟩ (some key) up
      = (⟨500, .errorBody "Server error" (some "Empty response from Claude API")⟩, true) := by
  obtain ⟨p, hp⟩ := hbuild
  have hextract : extractResponseText up = .error .emptyContent := by
    simp [extractResponseText, hok, hparsed, hcontent]
  have hfetch : fetchClaudeResponse msgs opts up = (.error .emptyContent, true) := by
    unfold fetchClaudeResponse
    rw [hp]
    simp [hextract]
  have herr : errorResponse (errorMessage ProxyError.emptyContent)
      = ⟨500, .errorBody "Server error" (some "Empty response from Claude API")⟩ := by decide
  have hping2 : ¬(msgs.length = 1 ∧
      (msgs.head?.getD (⟨none, none⟩ : Msg)).content = some "ping") := by
    rw [← List.headD_eq_head?]
    exact hping
  simp [handler, truthyStr_some hk, hping2, hfetch, herr]

/-- Witness for C6 at one user message and an empty upstream content array. -/
theorem empty_content_error_witness :
    handler ⟨"POST", some [⟨some "user", some "hi"⟩], some {}⟩ (some "k") upEmptyContent
      = (⟨500, .errorBody "Server error" (some "Empty response from Claude API")⟩, true) :=
  empty_content_error [⟨some "user", some "hi"⟩] {} "k" upEmptyContent ⟨some [], none⟩
    (by decide) (by decide) ⟨_, rfl⟩ rfl rfl rfl

/-- Claim C7: when a prior send is still pending or the quota counter is at
or below zero, the client send operation leaves the whole session state (in
particular the message list) unchanged and issues no request to the proxy. -/
theorem send_noop_when_blocked (s : ClientState) (o : FetchOutcome)
    (h : s.pendingMessages ≠ [] ∨ s.quota.messagesLeft ≤ 0) :
    (sendMessage s o).state = s ∧
    (sendMessage s o).state.messages.length = s.messages.length ∧
    (sendMessage s o).requestIssued = false := by
  have hstate : (sendMessage s o).state = s ∧ (sendMessage s o).requestIssued = false := by
    rcases h with h | h
    · simp [sendMessage, h]
    · by_cases hm : jsTrim s.inputValue = ""
      · simp [sendMessage, hm]
      · by_cases hp : s.pendingMessages = []
        · simp [sendMessage, hm, hp, h]
        · simp [sendMessage, hm, hp]
  exact ⟨hstate.1, by rw [hstate.1], hstate.2⟩

/-- Witness for C7 with a pending message and positive quota. -/
theorem send_noop_when_blocked_witness :
    (sendMessage ⟨"hello", ["x"], [], ⟨3, 7⟩, "online", false⟩ (.ok "r")).state
      = ⟨"hello", ["x"], [], ⟨3, 7⟩, "online", false⟩ ∧
    (sendMessage ⟨"hello", ["x"], [], ⟨3, 7⟩, "online", false⟩ (.ok "r")).state.messages.length
      = ([] : List ChatTurn).length ∧
    (sendMessage ⟨"hello", ["x"], [], ⟨3, 7⟩, "online", false⟩ (.ok "r")).requestIssued
      = false :=
  send_noop_when_blocked ⟨"hello", ["x"], [], ⟨3, 7⟩, "online", false⟩ (.ok "r")
    (Or.inl (by decide))

/-- Claim C8: when the send goes through and the fetch fails (network error,
non-ok status, or malformed body), the client appends the user turn and the
fixed apology turn, leaves both quota counters unchanged, and signals failure
with the error message text. -/
theorem send_failure_effects (s : ClientState) (o : FetchOutcome)
    (hm : jsTrim s.inputValue ≠ "") (hp : s.pendingMessages = [])
    (hq : 0 < s.quota.messagesLeft) (hs : s.apiStatus = "online")
    (hf : ∀ c, o ≠ .ok c) :
    (sendMessage s o).state.messages
      = s.messages ++ [⟨"user", jsTrim s.inputValue⟩, ⟨"ai", apologyText⟩] ∧
    (sendMessage s o).state.quota = s.quota ∧
    (sendMessage s o).requestIssued = true ∧
    (sendMessage s o).signal
      = .failure ("Failed to generate response: " ++ fetchErrorMessage o) := by
  have hq2 : ¬s.quota.messagesLeft ≤ 0 := by omega
  rcases o with m | st | m | c
  · simp [sendMessage, hm, hp, hq2, hs, fetchErrorMessage]
  · simp [sendMessage, hm, hp, hq2, hs, fetchErrorMessage]
  · simp [sendMessage, hm, hp, hq2, hs, fetchErrorMessage]
  · exact absurd rfl (hf c)

/-- Witness for C8 at a non-ok HTTP status outcome. -/
theorem send_failure_effects_witness :
    (sendMessage ⟨"hello", [], [], ⟨3, 7⟩, "online", false⟩ (.httpStatus 500)).state.messages
      = ([] : List ChatTurn) ++ [⟨"user", jsTrim "hello"⟩, ⟨"ai", apologyText⟩] ∧
    (sendMessage ⟨"hello", [], [], ⟨3, 7⟩, "online", false⟩ (.httpStatus 500)).state.quota
      = ⟨3, 7⟩ ∧
    (sendMessage ⟨"hello", [], [], ⟨3, 7⟩, "online", false⟩ (.httpStatus 500)).requestIssued
      = true ∧
    (sendMessage ⟨"hello", [], [], ⟨3, 7⟩, "online", false⟩ (.httpStatus 500)).signal
      = .failure ("Failed to generate response: " ++ fetchErrorMessage (.httpStatus 500)) :=
  send_failure_effects ⟨"hello", [], [], ⟨3, 7⟩, "online", false⟩ (.httpStatus 500)
    (by decide) rfl (by decide) rfl (fun c h => nomatch h)

/-- Claim C10: every completed sendMessage invocation preserves the sum
used + messagesLeft of the quota counters: short-circuits and failures leave
both unchanged, success moves one unit from messagesLeft to used. -/
theorem quota_sum_invariant (s : ClientState) (o : FetchOutcome) :
    (sendMessage s o).state.quota.used + (sendMessage s o).state.quota.messagesLeft
      = s.quota.used + s.quota.messagesLeft := by
  by_cases h1 : jsTrim s.inputValue = "" ∨ s.pendingMessages ≠ []
  · simp [sendMessage, h1]
  · by_cases h2 : s.quota.messagesLeft ≤ 0
    · simp [sendMessage, h1, h2]
    · by_cases h3 : s.apiStatus ≠ "online"
      · simp [sendMessage, h1, h2, h3]
      · rcases o with m | st | m | c <;> simp [sendMessage, h1, h2, h3]

end Nexariq
